/-
Verification of the RadioIQ report-generator core (server/main.py).

The embedding models the image pipeline (`process_dicom`, `process_image`),
the page decorator (`fetch_logo`, `_add_page_decorations`) and the document
compositor (`generate_pdf_report`, `create_report`) as pure Lean functions.
Python floats are modelled as exact rationals; numpy uint8 buffers as lists
of naturals; a Python exception escaping to the framework is an explicit
`PyErr` value (`.http` for a raised `HTTPException`, `.unhandled` for any
exception nobody catches).
-/
import Mathlib

namespace RadioIQ

/-- Outcome of raising in the Python code: an `HTTPException status detail`
(turned into a client/server response of that status by FastAPI) versus an
exception no handler catches (surfaced as an internal server error). -/
inductive PyErr where
  | http (status : ℕ) (detail : String)
  | unhandled (msg : String)
deriving DecidableEq, Repr

/-- The DICOM `PhotometricInterpretation` values the code inspects:
`MONOCHROME1` (inverted display convention) versus anything else. -/
inductive Photometric where
  | monochrome1
  | monochrome2
deriving DecidableEq, Repr

/-- Model of `pixel_array.min()`; the empty case never arises for decoded
pixel data. -/
def arrMin : List ℤ → ℤ
  | [] => 0
  | x :: xs => xs.foldl min x

/-- Model of `pixel_array.max()`. -/
def arrMax : List ℤ → ℤ
  | [] => 0
  | x :: xs => xs.foldl max x

/-- One sample of the min-max rescale
`(pixel_array - min) / (max - min) * 255.0` followed by `astype(np.uint8)`:
float arithmetic is modelled exactly in ℚ, and the C float→uint8 cast
truncates toward zero (the values lie in [0,255], where truncation is
`Rat.floor` composed with `Int.toNat`). -/
def rescale8 (lo hi v : ℤ) : ℕ :=
  (Int.floor ((((v : ℚ) - lo) / ((hi : ℚ) - lo)) * 255)).toNat

/-- Model of `np.invert` on a `uint8` sample: bitwise complement, which is
`255 - v` for `v ≤ 255`. -/
def invert8 (v : ℕ) : ℕ := 255 - v

/-- The normalization steps of `process_dicom` (main.py lines 34-37) applied
to the buffer produced by `apply_voi_lut`: min-max rescale to 8 bits, then
`np.invert` when the photometric interpretation is MONOCHROME1.
For a flat buffer (`max == min`) numpy evaluates `0/0` per sample, yielding
NaN (a runtime warning, not an exception), and `astype(np.uint8)` applied to
NaN is undefined behaviour with a platform-dependent result; the model
therefore assigns the flat case no defined value (`none`). -/
def normalizeDicom (buf : List ℤ) (phot : Photometric) : Option (List ℕ) :=
  let lo := arrMin buf
  let hi := arrMax buf
  if hi = lo then none
  else
    let scaled := buf.map (rescale8 lo hi)
    some (match phot with
      | .monochrome1 => scaled.map invert8
      | .monochrome2 => scaled)

/-! ### Images and the annotation renderer -/

/-- An in-memory PIL image: dimensions plus the RGB sample at each
(column, row) pixel coordinate. -/
structure Img where
  w : ℕ
  h : ℕ
  pix : ℕ → ℕ → ℕ × ℕ × ℕ

/-- Model of `Image.fromarray` on the normalized single-channel buffer of
`rows × cols` samples, viewed through the later `convert('RGB')` as an
equal-channel RGB image. -/
def grayImg (cols rows : ℕ) (buf : List ℕ) : Img :=
  { w := cols, h := rows,
    pix := fun i j => ((buf.getD (j * cols + i) 0, buf.getD (j * cols + i) 0,
      buf.getD (j * cols + i) 0)) }

/-- Model of `img.resize((target, target)).convert('RGB')`. The resampling
kernel is a PIL library detail modelled as nearest-neighbour; every claim
below uses only that the result is a `target × target` RGB image determined
by the source image and the fixed target size. -/
def resizeRGB (img : Img) (target : ℕ) : Img :=
  { w := target, h := target,
    pix := fun i j => img.pix (i * img.w / target) (j * img.h / target) }

/-- One mutation applied to a canvas through `ImageDraw`: an outlined
rectangle or a text label, with exact rational coordinates. -/
inductive DrawOp where
  | rect (x0 y0 x1 y1 : ℚ) (outline : String) (lineWidth : ℕ)
  | text (x y : ℚ) (content : String) (fill : String)
deriving DecidableEq, Repr

/-- A drawing surface: the pixel buffer it started from plus the sequence of
mutations applied to it through `ImageDraw`. Two canvases are equal exactly
when they hold the same base pixels and the same drawn operations;
rasterization of an operation into pixels is a PIL library effect not
re-modelled here. -/
structure Canvas where
  base : Img
  ops : List DrawOp

/-- A JSON value sitting in a bbox field, as `float(value)` sees it:
a number, a string that parses as a number, or a value `float` rejects by
raising. -/
inductive FieldVal where
  | num (q : ℚ)
  | strNum (q : ℚ)
  | bad (txt : String)
deriving DecidableEq, Repr

/-- Model of Python `float(v)`: numbers and numeric strings convert,
anything else raises (the error carries the message text). -/
def pyFloat : FieldVal → Except String ℚ
  | .num q => .ok q
  | .strNum q => .ok q
  | .bad t => .error ("could not convert string to float: " ++ t)

/-- The `bbox` object of an abnormality: each coordinate key may be absent,
and `bbox.get(key, 0)` then supplies the default `0`. -/
structure BBox where
  x : Option FieldVal
  y : Option FieldVal
  width : Option FieldVal
  height : Option FieldVal
deriving DecidableEq, Repr

/-- One entry of the abnormalities array: the `name` and `bbox` keys may
each be absent (`ab.get` supplies `''` and `{}` respectively). -/
structure Abnormality where
  name : Option String
  bbox : Option BBox
deriving DecidableEq, Repr

/-- The empty dict `{}` that `ab.get('bbox', {})` falls back to. -/
def emptyBBox : BBox := ⟨none, none, none, none⟩

/-- The loop body of `process_image` for one abnormality (main.py lines
60-71): read the four bbox fields via `bbox.get(key, 0)`, convert each with
`float`, scale by `sx`/`sy`, and when both scaled extents are strictly
positive record the outline rectangle and, for a non-empty label, the label
text clamped at the canvas top (`max(y - 14, 0)`). A `float` failure is the
raised exception that the enclosing `except` turns into an HTTP 400. -/
def drawAbn (sx sy : ℚ) (ab : Abnormality) : Except String (List DrawOp) :=
  let bbox := ab.bbox.getD emptyBBox
  let label := ab.name.getD ""
  match pyFloat (bbox.x.getD (.num 0)) with
  | .error e => .error e
  | .ok x0 =>
    match pyFloat (bbox.y.getD (.num 0)) with
    | .error e => .error e
    | .ok y0 =>
      match pyFloat (bbox.width.getD (.num 0)) with
      | .error e => .error e
      | .ok w0 =>
        match pyFloat (bbox.height.getD (.num 0)) with
        | .error e => .error e
        | .ok h0 =>
          let x := x0 * sx
          let y := y0 * sy
          let w := w0 * sx
          let h := h0 * sy
          if w > 0 ∧ h > 0 then
            .ok ([DrawOp.rect x y (x + w) (y + h) "red" 3] ++
              (if label ≠ "" then [DrawOp.text x (max (y - 14) 0) label "red"]
               else []))
          else .ok []

/-- The whole annotation loop (main.py lines 60-73): the first exception
aborts everything as `HTTPException(400, "Invalid bbox: ...")`; otherwise
the drawn operations accumulate in list order. -/
def annotateAll (sx sy : ℚ) : List Abnormality → Except PyErr (List DrawOp)
  | [] => .ok []
  | ab :: rest =>
    match drawAbn sx sy ab with
    | .error e => .error (.http 400 ("Invalid bbox: " ++ e))
    | .ok ops =>
      match annotateAll sx sy rest with
      | .error e => .error e
      | .ok more => .ok (ops ++ more)

/-! ### Decoding and `process_image` -/

/-- A parsed clinical container: dimensions, the sample buffer after
`apply_voi_lut` — or the library error raised while decoding the pixel data
(for example an unsupported transfer syntax), which is not an
`InvalidDicomError` — and the photometric interpretation. -/
structure DicomFile where
  rows : ℕ
  cols : ℕ
  pixelData : Except String (List ℤ)
  phot : Photometric

/-- What the uploaded bytes actually are, as the two decoding libraries see
them: a DICOM stream (`dcmread` succeeds), a PNG stream (`Image.open`
succeeds), or bytes neither library accepts. -/
inductive FileContent where
  | dicomFile (d : DicomFile)
  | pngFile (img : Img)
  | invalidBytes (msg : String)

/-- Model of `pydicom.dcmread`: succeeds on a DICOM stream and raises
`InvalidDicomError` (carrying the message) on anything else. -/
def dcmread : FileContent → Except String DicomFile
  | .dicomFile d => .ok d
  | .pngFile _ => .error "File is missing DICOM File Meta Information header"
  | .invalidBytes msg => .error msg

/-- Model of `PIL.Image.open`: succeeds on a PNG stream and raises
`UnidentifiedImageError` — which nothing in main.py catches — on anything
else. -/
def pilOpen : FileContent → Except String Img
  | .pngFile i => .ok i
  | _ => .error "cannot identify image file"

/-- Model of `process_dicom` (main.py lines 30-40): only `InvalidDicomError`
is caught and re-raised as HTTP 400; an error while decoding the pixel data
propagates unhandled; on a flat buffer the NaN→uint8 cast has no defined
result (see `normalizeDicom`). -/
def process_dicom (fc : FileContent) : Except PyErr Img :=
  match dcmread fc with
  | .error e => .error (.http 400 ("DICOM processing error: " ++ e))
  | .ok d =>
    match d.pixelData with
    | .error e => .error (.unhandled e)
    | .ok buf =>
      match normalizeDicom buf d.phot with
      | none => .error (.unhandled "flat buffer: uint8 cast of NaN is undefined")
      | some out => .ok (grayImg d.cols d.rows out)

/-- Lowercase one ASCII character, modelling Python `str.lower` on the
ASCII filenames involved. -/
def lowerCh (c : Char) : Char :=
  if 'A' ≤ c ∧ c ≤ 'Z' then Char.ofNat (c.toNat + 32) else c

/-- Model of `str.lower()` over the character list of the string. -/
def pyLower (s : String) : String := ⟨s.data.map lowerCh⟩

/-- Model of `s.rsplit('.', 1)[-1]`: everything after the last dot, or the
whole string when no dot occurs. -/
def afterLastDot (s : String) : String :=
  ⟨(s.data.reverse.takeWhile (fun c => c ≠ '.')).reverse⟩

/-- Model of `file.filename.rsplit('.', 1)[-1].lower()` (main.py line 43). -/
def extOf (s : String) : String := pyLower (afterLastDot s)

/-- An uploaded file: the claimed filename and the content of its stream. -/
structure UploadFile where
  filename : String
  content : FileContent

/-- The decode dispatch of `process_image` (main.py lines 43-50): DICOM
extensions go through `process_dicom`, `png` through `Image.open` — whose
failure nothing catches — and any other extension is rejected with
HTTP 400. -/
def decodeUpload (file : UploadFile) : Except PyErr Img :=
  let ext := extOf file.filename
  if ext = "dcm" ∨ ext = "dicom" ∨ ext = "dic" then process_dicom file.content
  else if ext = "png" then
    match pilOpen file.content with
    | .ok i => .ok i
    | .error e => .error (.unhandled e)
  else .error (.http 400 "Unsupported file format")

/-- Model of `process_image` (main.py lines 42-74): decode, resize to the
1024×1024 RGB canvas, copy the resized image (`img_resized.copy()`), and
draw every positively-sized abnormality on the copy only, with
`sx = 1024 / orig_w` and `sy = 1024 / orig_h`. Returns the pair
(plain resized canvas, annotated canvas). -/
def process_image (file : UploadFile) (abnormalities : List Abnormality) :
    Except PyErr (Canvas × Canvas) :=
  match decodeUpload file with
  | .error e => .error e
  | .ok img =>
    let img_resized := resizeRGB img 1024
    let sx : ℚ := (1024 : ℚ) / img.w
    let sy : ℚ := (1024 : ℚ) / img.h
    match annotateAll sx sy abnormalities with
    | .error e => .error e
    | .ok ops => .ok (⟨img_resized, []⟩, ⟨img_resized, ops⟩)

/-! ### Document compositor -/

/-- One point-unit of `reportlab.lib.units`: 72 points per inch. -/
def inch : ℚ := 72

/-- A flowable appended to `elems` in `generate_pdf_report`: paragraphs
carry their text and style name, the patient-details table its two columns
of label/value rows, images the canvas they embed with its display size. -/
inductive Elem where
  | spacer (w gap : ℚ)
  | para (text : String) (style : String)
  | detailsTable (left : List (String × String)) (right : List (String × String))
  | pageBreak
  | image (c : Canvas) (w h : ℚ)

/-- Model of Python `det.get(key, 'N/A')` on the details dict, the dict
being a partial map from key to stored value. -/
def detGet (det : String → Option String) (key : String) : String :=
  (det key).getD "N/A"

/-- The left patient-details column (main.py lines 169-175). -/
def leftRows (det : String → Option String) : List (String × String) :=
  [("Name:", detGet det "patientName"),
   ("ID:", detGet det "patientId"),
   ("Gender:", detGet det "gender"),
   ("Age:", detGet det "age"),
   ("Location:", detGet det "location")]

/-- The right patient-details column (main.py lines 176-182). -/
def rightRows (det : String → Option String) : List (String × String) :=
  [("Exam Date:", detGet det "dateOfExam"),
   ("Physician:", detGet det "referredPhysician"),
   ("Radiologist:", detGet det "radiologist"),
   ("Exam Type:", detGet det "examType"),
   ("Body Part:", detGet det "bodyPart")]

/-- The enumerated abnormality lines produced by
`for i, ab in enumerate(ab_list, 1)` with `f"{i}. {ab.get('name', 'Unnamed')}"`
(main.py lines 198-199), starting from index `i`. -/
def enumFindings (i : ℕ) : List Abnormality → List Elem
  | [] => []
  | ab :: rest =>
    .para (toString i ++ ". " ++ ab.name.getD "Unnamed") "CustomNormal" ::
      enumFindings (i + 1) rest

/-- The findings block (main.py lines 196-201): the Python condition
`if abnormal and ab_list` holds exactly when the flag is set and the list is
non-empty; otherwise the literal `Normal` paragraph is emitted. -/
def findingsElems (abnormal : Bool) (ab_list : List Abnormality) : List Elem :=
  if abnormal && !ab_list.isEmpty then
    .para "Abnormalities:" "SubHeader" :: enumFindings 1 ab_list
  else
    [.para "Normal" "CustomNormal"]

/-- The flowables appended by `generate_pdf_report` before the findings
block (main.py lines 162-195): header, patient details, findings heading. -/
def gpHead (det : String → Option String) : List Elem :=
  [Elem.spacer 1 24,
   Elem.para "CXR Medical Report" "Header",
   Elem.spacer 1 12,
   Elem.para "PATIENT DETAILS" "SectionHeader",
   Elem.detailsTable (leftRows det) (rightRows det),
   Elem.spacer 1 12,
   Elem.para "FINDINGS" "SectionHeader"]

/-- The flowables appended by `generate_pdf_report` after the findings block
(main.py lines 203-228): TB possibility, doctor notes, and the two
full-page images. -/
def gpTail (det : String → Option String) (orig ann : Canvas) : List Elem :=
  [Elem.spacer 1 12,
   Elem.para "TB Possibility:" "SubHeader",
   Elem.para (detGet det "tbPossibility") "CustomNormal",
   Elem.spacer 1 12,
   Elem.para "DOCTOR NOTES" "SectionHeader",
   Elem.para (detGet det "doctorNotes") "CustomNormal",
   Elem.pageBreak,
   Elem.para "Original X-ray Image" "SectionHeader",
   Elem.image orig (6 * inch) (6 * inch),
   Elem.pageBreak,
   Elem.para "Annotated X-ray Image" "SectionHeader",
   Elem.image ann (6 * inch) (6 * inch)]

/-- Model of `generate_pdf_report` (main.py lines 137-232): the ordered list
of flowables built into the document (`doc.build(elems, ...)`), assembled
around the findings block. The PNG serialization of each image into its
flowable is kept as the canvas value itself. -/
def generate_pdf_report (orig ann : Canvas) (det : String → Option String)
    (abnormal : Bool) (ab_list : List Abnormality) : List Elem :=
  gpHead det ++ findingsElems abnormal ab_list ++ gpTail det orig ann

/-! ### The endpoint `create_report` -/

/-- Outcome of `json.loads` on the `abnormalities` form field: a JSON array
of abnormality objects, valid JSON that is not an array (the endpoint then
raises `ValueError('Invalid abnormalities list')`), or a JSON parse
failure. -/
inductive AbnField where
  | arr (l : List Abnormality)
  | nonArray
  | parseFailure (msg : String)

/-- The parse-and-validate step of `create_report` (main.py lines 254-259):
both failure shapes become `HTTPException(400, "Invalid abnormalities: ...")`. -/
def parseAbnormalities : AbnField → Except PyErr (List Abnormality)
  | .arr l => .ok l
  | .nonArray => .error (.http 400 "Invalid abnormalities: Invalid abnormalities list")
  | .parseFailure m => .error (.http 400 ("Invalid abnormalities: " ++ m))

/-- Model of `str.endswith(suffix)` over character lists. -/
def pyEndsWith (s suffix : String) : Bool := suffix.data.isSuffixOf s.data

/-- Model of `file.filename.lower().endswith(('.dcm', '.dicom', '.dic', '.png'))`
(main.py line 252). -/
def validSuffix (filename : String) : Bool :=
  let s := pyLower filename
  pyEndsWith s ".dcm" || pyEndsWith s ".dicom" || pyEndsWith s ".dic" ||
    pyEndsWith s ".png"

/-- The request form of the `/generate-report/` endpoint: each field is
`none` when absent from the request, in which case FastAPI applies the
declared default (`''` for the text fields, `False` for the flag, `'[]'`
for the abnormalities field). The abnormalities field is carried as the
outcome of `json.loads` on the raw string. -/
structure ReqForm where
  patientName : Option String
  dateOfExam : Option String
  patientId : Option String
  gender : Option String
  age : Option String
  location : Option String
  referredPhysician : Option String
  radiologist : Option String
  examType : Option String
  bodyPart : Option String
  tbPossibility : Option String
  doctorNotes : Option String
  isAbnormal : Option Bool
  abnormalities : Option AbnField

/-- The `det` dict built in `create_report` (main.py lines 262-275): every
key is present, holding the form value with absent request fields already
defaulted to the empty string by FastAPI. -/
def buildDet (f : ReqForm) : String → Option String := fun k =>
  if k = "patientName" then some (f.patientName.getD "")
  else if k = "dateOfExam" then some (f.dateOfExam.getD "")
  else if k = "patientId" then some (f.patientId.getD "")
  else if k = "gender" then some (f.gender.getD "")
  else if k = "age" then some (f.age.getD "")
  else if k = "location" then some (f.location.getD "")
  else if k = "referredPhysician" then some (f.referredPhysician.getD "")
  else if k = "radiologist" then some (f.radiologist.getD "")
  else if k = "examType" then some (f.examType.getD "")
  else if k = "bodyPart" then some (f.bodyPart.getD "")
  else if k = "tbPossibility" then some (f.tbPossibility.getD "")
  else if k = "doctorNotes" then some (f.doctorNotes.getD "")
  else none

/-- Model of the `/generate-report/` endpoint body (main.py lines 234-281):
suffix check, abnormalities parse, image processing, then document build. -/
def create_report (file : UploadFile) (f : ReqForm) :
    Except PyErr (List Elem) :=
  if !validSuffix file.filename then .error (.http 400 "Invalid file format")
  else
    match parseAbnormalities (f.abnormalities.getD (.arr [])) with
    | .error e => .error e
    | .ok ab_list =>
      match process_image file ab_list with
      | .error e => .error e
      | .ok (orig, ann) =>
        .ok (generate_pdf_report orig ann (buildDet f)
              (f.isAbnormal.getD false) ab_list)

/-! ### Page decorator -/

/-- The branding asset after `convert('RGBA')` and flattening: its pixel
dimensions are all the decorator reads from it. -/
structure LogoImg where
  w : ℕ
  h : ℕ
deriving DecidableEq, Repr

/-- Model of `fetch_logo` (main.py lines 76-100): the branding asset on disk
is a parameter (`none` when the file is missing or unreadable, in which case
`Image.open` raises and the function re-raises HTTP 500). On success it
returns the flattened logo and its display size: width fixed at 1.5 inch,
height derived from the native aspect ratio. -/
def fetch_logo (asset : Option LogoImg) : Except PyErr (LogoImg × ℚ × ℚ) :=
  match asset with
  | none => .error (.http 500 "Logo load failed: cannot identify image file")
  | some img =>
    let dispW : ℚ := 1.5 * inch
    let dispH : ℚ := dispW * ((img.h : ℚ) / img.w)
    .ok (img, dispW, dispH)

/-- One drawing action of the page decorator on the PDF canvas. -/
inductive DecOp where
  | logo (img : LogoImg) (x y w h : ℚ)
  | rightText (x y : ℚ) (content : String)
  | centredText (x y : ℚ) (content : String)
deriving DecidableEq, Repr

/-- Page width of `reportlab.lib.pagesizes.letter` in points. -/
def letterW : ℚ := 612

/-- Page height of `reportlab.lib.pagesizes.letter` in points. -/
def letterH : ℚ := 792

/-- The document margins set in `generate_pdf_report` (main.py lines
142-145), which `_add_page_decorations` reads from `doc`. -/
def leftMargin : ℚ := 0.75 * inch

/-- Right margin of the document. -/
def rightMargin : ℚ := 0.75 * inch

/-- Top margin of the document. -/
def topMargin : ℚ := 1 * inch

/-- Bottom margin of the document. -/
def bottomMargin : ℚ := 1 * inch

/-- The disclaimer footer string (main.py lines 129-132). -/
def disclaimer : String :=
  "This is an AI generated report. The findings are to be used for diagnostic purposes in consultation with a licensed medical expert."

/-- Model of `_add_page_decorations` (main.py lines 102-135): on page 1, try
to draw the logo — the bare `except: pass` swallows any failure from
`fetch_logo` or the image embedding — then draw the date and time strings
right-aligned; on every page draw the centred disclaimer footer. The date
and time strings (`datetime.now().strftime(...)` output) are parameters.
The return value is the list of canvas operations; the return type being a
plain list records that no exception can escape this function. -/
def add_page_decorations (asset : Option LogoImg) (pageNumber : ℕ)
    (dateStr timeStr : String) : List DecOp :=
  (if pageNumber = 1 then
    (match fetch_logo asset with
     | .ok (img, lw, lh) => [DecOp.logo img leftMargin (letterH - lh - 10) lw lh]
     | .error _ => []) ++
    [DecOp.rightText (letterW - rightMargin) (letterH - topMargin + 20) dateStr,
     DecOp.rightText (letterW - rightMargin) (letterH - topMargin + 4) timeStr]
  else []) ++
  [DecOp.centredText (letterW / 2) (bottomMargin / 2) disclaimer]

/-! ### Derived notions used by the statements -/

/-- The parsed bbox of an abnormality, when every field converts with
`float`; `none` when some field raises. -/
def parsedBBox (ab : Abnormality) : Option (ℚ × ℚ × ℚ × ℚ) :=
  let b := ab.bbox.getD emptyBBox
  match pyFloat (b.x.getD (.num 0)), pyFloat (b.y.getD (.num 0)),
        pyFloat (b.width.getD (.num 0)), pyFloat (b.height.getD (.num 0)) with
  | .ok x, .ok y, .ok w, .ok h => some (x, y, w, h)
  | _, _, _, _ => none

/-- The canvases embedded in a built flowable list, in document order. -/
def docImages (elems : List Elem) : List Canvas :=
  elems.filterMap (fun e => match e with
    | .image c _ _ => some c
    | _ => none)

/-! ### Concrete inputs used by witnesses and counterexamples -/

/-- A concrete 500×300 source image. -/
def demoImg : Img := ⟨500, 300, fun _ _ => (0, 0, 0)⟩

/-- A PNG upload of the demo image under the name `scan.png`. -/
def demoPng : UploadFile := ⟨"scan.png", .pngFile demoImg⟩

/-- The spec scenario abnormality
`{name: "Nodule", bbox: {x: 100, y: 50, width: 40, height: 30}}`. -/
def nodule : Abnormality :=
  ⟨some "Nodule",
   some ⟨some (.num 100), some (.num 50), some (.num 40), some (.num 30)⟩⟩

/-- An abnormality whose bbox width is not numeric. -/
def badAb : Abnormality :=
  ⟨some "Bad", some ⟨some (.num 1), some (.num 2), some (.bad "oops"), some (.num 3)⟩⟩

/-- An abnormality with a degenerate (zero-width) bbox. -/
def flatAb : Abnormality :=
  ⟨some "Flat", some ⟨some (.num 1), some (.num 1), some (.num 0), some (.num 5)⟩⟩

/-- The request form with every field absent from the request. -/
def emptyForm : ReqForm :=
  ⟨none, none, none, none, none, none, none, none, none, none, none, none,
   none, none⟩

/-- A clinical container whose pixel data the library cannot decode. -/
def badDicom : DicomFile :=
  ⟨10, 10, .error "Unsupported Transfer Syntax", .monochrome2⟩


/-! ### Auxiliary lemmas -/

theorem drawAbn_of_parsed (sx sy : ℚ) (ab : Abnormality) (x y w h : ℚ)
    (hp : parsedBBox ab = some (x, y, w, h)) :
    drawAbn sx sy ab =
      if w * sx > 0 ∧ h * sy > 0 then
        .ok ([DrawOp.rect (x * sx) (y * sy) (x * sx + w * sx) (y * sy + h * sy) "red" 3] ++
          (if ab.name.getD "" ≠ "" then
            [DrawOp.text (x * sx) (max (y * sy - 14) 0) (ab.name.getD "") "red"]
          else []))
      else .ok [] := by
  unfold parsedBBox at hp
  unfold drawAbn
  rcases hx : pyFloat ((ab.bbox.getD emptyBBox).x.getD (.num 0)) with ex | qx
  · simp [hx] at hp
  simp only [hx] at hp ⊢
  rcases hy : pyFloat ((ab.bbox.getD emptyBBox).y.getD (.num 0)) with ey | qy
  · simp [hy] at hp
  simp only [hy] at hp ⊢
  rcases hw : pyFloat ((ab.bbox.getD emptyBBox).width.getD (.num 0)) with ew | qw
  · simp [hw] at hp
  simp only [hw] at hp ⊢
  rcases hh : pyFloat ((ab.bbox.getD emptyBBox).height.getD (.num 0)) with eh | qh
  · simp [hh] at hp
  simp only [hh] at hp ⊢
  simp only [Option.some.injEq, Prod.mk.injEq] at hp
  obtain ⟨rfl, rfl, rfl, rfl⟩ := hp
  rfl

theorem drawAbn_error_of_unparsed (sx sy : ℚ) (ab : Abnormality)
    (hp : parsedBBox ab = none) :
    ∃ e, drawAbn sx sy ab = .error e := by
  unfold parsedBBox at hp
  unfold drawAbn
  rcases hx : pyFloat ((ab.bbox.getD emptyBBox).x.getD (.num 0)) with ex | qx
  · exact ⟨ex, by simp only [hx]⟩
  simp only [hx] at hp
  rcases hy : pyFloat ((ab.bbox.getD emptyBBox).y.getD (.num 0)) with ey | qy
  · exact ⟨ey, by simp only [hx, hy]⟩
  simp only [hy] at hp
  rcases hw : pyFloat ((ab.bbox.getD emptyBBox).width.getD (.num 0)) with ew | qw
  · exact ⟨ew, by simp only [hx, hy, hw]⟩
  simp only [hw] at hp
  rcases hh : pyFloat ((ab.bbox.getD emptyBBox).height.getD (.num 0)) with eh | qh
  · exact ⟨eh, by simp only [hx, hy, hw, hh]⟩
  simp only [hh] at hp
  simp at hp

theorem drawAbn_ok_of_parsed (sx sy : ℚ) (a : Abnormality) (x y w h : ℚ)
    (hp : parsedBBox a = some (x, y, w, h)) :
    ∃ ops, drawAbn sx sy a = .ok ops := by
  rw [drawAbn_of_parsed sx sy a x y w h hp]
  by_cases hc : w * sx > 0 ∧ h * sy > 0 <;> simp [hc]

theorem annotateAll_cons_skip (sx sy : ℚ) (ab : Abnormality)
    (rest : List Abnormality) (h : drawAbn sx sy ab = .ok []) :
    annotateAll sx sy (ab :: rest) = annotateAll sx sy rest := by
  rw [annotateAll, h]
  cases annotateAll sx sy rest <;> simp

theorem annotateAll_append_error (sx sy : ℚ) (pre : List Abnormality)
    (ab : Abnormality) (rest : List Abnormality)
    (hpre : ∀ a ∈ pre, parsedBBox a ≠ none)
    (hab : parsedBBox ab = none) :
    ∃ d, annotateAll sx sy (pre ++ ab :: rest) = .error (.http 400 d) := by
  induction pre with
  | nil =>
    obtain ⟨e, he⟩ := drawAbn_error_of_unparsed sx sy ab hab
    exact ⟨"Invalid bbox: " ++ e, by simp [annotateAll, he]⟩
  | cons a pre ih =>
    obtain ⟨d, hd⟩ := ih (fun b hb => hpre b (List.mem_cons_of_mem _ hb))
    have ha := hpre a (List.mem_cons_self a pre)
    rcases hq : parsedBBox a with _ | q
    · exact absurd hq ha
    obtain ⟨x, y, w, h⟩ := q
    obtain ⟨ops, hops⟩ := drawAbn_ok_of_parsed sx sy a x y w h hq
    refine ⟨d, ?_⟩
    rw [List.cons_append]
    unfold annotateAll
    rw [hops, hd]

theorem docImages_enumFindings (i : ℕ) (l : List Abnormality) :
    docImages (enumFindings i l) = [] := by
  induction l generalizing i with
  | nil => rfl
  | cons ab rest ih =>
    unfold enumFindings docImages
    unfold docImages at ih
    simp only [List.filterMap_cons]
    exact ih (i + 1)

theorem docImages_findings (b : Bool) (l : List Abnormality) :
    docImages (findingsElems b l) = [] := by
  unfold findingsElems
  by_cases hc : (b && !l.isEmpty) = true
  · rw [if_pos hc]
    have h := docImages_enumFindings 1 l
    unfold docImages at h ⊢
    simpa using h
  · rw [if_neg hc]
    rfl

theorem docImages_generate (orig ann : Canvas) (det : String → Option String)
    (b : Bool) (l : List Abnormality) :
    docImages (generate_pdf_report orig ann det b l) = [orig, ann] := by
  have h := docImages_findings b l
  unfold generate_pdf_report docImages at *
  simp only [List.filterMap_append, h, gpHead, gpTail]
  rfl

/-! ### The claims -/

/-- C1 (code bug): the intensity normalizer has no deterministic fallback
for a flat buffer. At the all-equal input `[5, 5, 5]` the rescale divides by
zero (`max - min = 0`): numpy emits NaN for every sample and `astype(np.uint8)`
applied to NaN is undefined behaviour with a platform-dependent result, so
the model assigns the flat case no defined output at all — contradicting the
claimed defined, deterministic fallback. -/
theorem C1_flat_buffer_has_no_defined_fallback :
    normalizeDicom [5, 5, 5] .monochrome2 = none ∧
    normalizeDicom [5, 5, 5] .monochrome1 = none := by
  constructor <;> norm_num [normalizeDicom, arrMin, arrMax]

/-- C5: the MONOCHROME1 output equals the MONOCHROME2 output with every
sample inverted as `255 - value`: the polarity correction applies to the
already-rescaled 8-bit buffer, after the min-max rescale, so the flagged
output is the sample-wise complement of the unflagged output on identical
source data. -/
theorem C5_polarity_inverts_after_rescale (buf : List ℤ) :
    normalizeDicom buf .monochrome1 =
      (normalizeDicom buf .monochrome2).map (List.map invert8) := by
  unfold normalizeDicom
  by_cases h : arrMax buf = arrMin buf <;> simp [h]

/-- C2: the findings block renders the literal `Normal` paragraph exactly
when the abnormal flag is false or the abnormality list is empty, and
renders the `Abnormalities:` heading followed by the 1-based enumerated
names exactly when the flag is true and the list is non-empty. -/
theorem C2_findings_normal_iff (abnormal : Bool) (ab_list : List Abnormality) :
    (findingsElems abnormal ab_list = [Elem.para "Normal" "CustomNormal"] ↔
      (abnormal = false ∨ ab_list = [])) ∧
    (abnormal = true → ab_list ≠ [] →
      findingsElems abnormal ab_list =
        Elem.para "Abnormalities:" "SubHeader" :: enumFindings 1 ab_list) := by
  unfold findingsElems
  by_cases hc : (abnormal && !ab_list.isEmpty) = true
  · rw [if_pos hc]
    obtain ⟨ha, hne⟩ : abnormal = true ∧ ab_list.isEmpty = false := by
      simpa using hc
    refine ⟨⟨fun h => ?_, fun h => ?_⟩, fun _ _ => rfl⟩
    · simp at h
    · rcases h with h | h
      · rw [ha] at h; cases h
      · rw [h] at hne; simp at hne
  · rw [if_neg hc]
    refine ⟨⟨fun _ => ?_, fun _ => rfl⟩, fun ha hne => ?_⟩
    · rcases Bool.eq_false_or_eq_true abnormal with ha | ha
      · refine Or.inr ?_
        simp [ha] at hc
        simpa using hc
      · exact Or.inl ha
    · exact absurd (by simp [ha, hne]) hc

/-- Witness for C2: with the flag set and one abnormality the enumerated
block renders; with the flag cleared the same list renders `Normal`. -/
theorem C2_witness :
    (findingsElems true [nodule] =
      Elem.para "Abnormalities:" "SubHeader" :: enumFindings 1 [nodule]) ∧
    (findingsElems false [nodule] = [Elem.para "Normal" "CustomNormal"]) :=
  ⟨(C2_findings_normal_iff true [nodule]).2 rfl (by simp),
   ((C2_findings_normal_iff false [nodule]).1).mpr (Or.inl rfl)⟩

/-- C3: for a W×H PNG source, each abnormality bbox is mapped into the
1024×1024 canvas by the linear transform with independent scale factors
`sx = 1024/W` and `sy = 1024/H`: the drawn rectangle spans
`(x*sx, y*sy)` to `(x*sx + w*sx, y*sy + h*sy)`, the label sits at the
clamped top edge; and for a 500×300 source `sx = 1024/500 = 2.048`. -/
theorem C3_bbox_linear_scaling (W H : ℕ) (pix : ℕ → ℕ → ℕ × ℕ × ℕ)
    (n : String) (x y w h : ℚ)
    (hW : 0 < W) (hH : 0 < H) (hw : 0 < w) (hh : 0 < h) (hn : n ≠ "") :
    (process_image ⟨"scan.png", .pngFile ⟨W, H, pix⟩⟩
        [⟨some n, some ⟨some (.num x), some (.num y), some (.num w), some (.num h)⟩⟩] =
      .ok (⟨resizeRGB ⟨W, H, pix⟩ 1024, []⟩,
           ⟨resizeRGB ⟨W, H, pix⟩ 1024,
            [DrawOp.rect (x * (1024 / (W : ℚ))) (y * (1024 / (H : ℚ)))
               (x * (1024 / (W : ℚ)) + w * (1024 / (W : ℚ)))
               (y * (1024 / (H : ℚ)) + h * (1024 / (H : ℚ))) "red" 3,
             DrawOp.text (x * (1024 / (W : ℚ)))
               (max (y * (1024 / (H : ℚ)) - 14) 0) n "red"]⟩)) ∧
    (1024 : ℚ) / 500 = 2.048 := by
  constructor
  · have hWQ : (0 : ℚ) < (W : ℚ) := by exact_mod_cast hW
    have hHQ : (0 : ℚ) < (H : ℚ) := by exact_mod_cast hH
    have hsx : (0 : ℚ) < 1024 / (W : ℚ) := div_pos (by norm_num) hWQ
    have hsy : (0 : ℚ) < 1024 / (H : ℚ) := div_pos (by norm_num) hHQ
    have hdraw := drawAbn_of_parsed (1024 / (W : ℚ)) (1024 / (H : ℚ))
      ⟨some n, some ⟨some (.num x), some (.num y), some (.num w), some (.num h)⟩⟩
      x y w h rfl
    rw [if_pos ⟨mul_pos hw hsx, mul_pos hh hsy⟩] at hdraw
    simp only [Option.getD_some] at hdraw
    rw [if_pos hn] at hdraw
    have hdec : decodeUpload ⟨"scan.png", .pngFile ⟨W, H, pix⟩⟩ =
        .ok ⟨W, H, pix⟩ := rfl
    unfold process_image
    rw [hdec]
    dsimp only
    unfold annotateAll
    rw [hdraw]
    rfl
  · norm_num

/-- Witness for C3 at the spec scenario: the 500×300 PNG with the Nodule
bbox (100, 50, 40, 30). -/
theorem C3_witness :
    (process_image demoPng [nodule] =
      .ok (⟨resizeRGB demoImg 1024, []⟩,
           ⟨resizeRGB demoImg 1024,
            [DrawOp.rect (100 * (1024 / ((500 : ℕ) : ℚ))) (50 * (1024 / ((300 : ℕ) : ℚ)))
               (100 * (1024 / ((500 : ℕ) : ℚ)) + 40 * (1024 / ((500 : ℕ) : ℚ)))
               (50 * (1024 / ((300 : ℕ) : ℚ)) + 30 * (1024 / ((300 : ℕ) : ℚ))) "red" 3,
             DrawOp.text (100 * (1024 / ((500 : ℕ) : ℚ)))
               (max (50 * (1024 / ((300 : ℕ) : ℚ)) - 14) 0) "Nodule" "red"]⟩)) ∧
    (1024 : ℚ) / 500 = 2.048 :=
  C3_bbox_linear_scaling 500 300 (fun _ _ => (0, 0, 0)) "Nodule" 100 50 40 30
    (by norm_num) (by norm_num) (by norm_num) (by norm_num) (by decide)

/-- C4: an abnormality whose parsed bbox has non-positive scaled width or
height is skipped silently — the annotation outcome equals that of the rest
of the list — whereas an abnormality with a bbox field `float` cannot parse
aborts the loop with HTTP 400 (`InvalidAnnotationError`), from any position
whose earlier entries all parse; these are the only non-drawing outcomes. -/
theorem C4_skip_vs_reject (sx sy : ℚ) (ab : Abnormality)
    (pre rest : List Abnormality) :
    (∀ x y w h, parsedBBox ab = some (x, y, w, h) →
      ¬(w * sx > 0 ∧ h * sy > 0) →
      annotateAll sx sy (ab :: rest) = annotateAll sx sy rest) ∧
    (parsedBBox ab = none → (∀ a ∈ pre, parsedBBox a ≠ none) →
      ∃ d, annotateAll sx sy (pre ++ ab :: rest) = .error (.http 400 d)) := by
  constructor
  · intro x y w h hp hns
    apply annotateAll_cons_skip
    rw [drawAbn_of_parsed sx sy ab x y w h hp, if_neg hns]
  · intro hab hpre
    exact annotateAll_append_error sx sy pre ab rest hpre hab

/-- Witness for C4: the zero-width abnormality is skipped (annotating
`[flatAb, nodule]` equals annotating `[nodule]`), and a non-numeric width
field occurring after a parsable entry rejects with HTTP 400. -/
theorem C4_witness :
    (annotateAll (1024 / (500 : ℚ)) (1024 / (300 : ℚ)) [flatAb, nodule] =
      annotateAll (1024 / (500 : ℚ)) (1024 / (300 : ℚ)) [nodule]) ∧
    (∃ d, annotateAll (1024 / (500 : ℚ)) (1024 / (300 : ℚ)) [nodule, badAb] =
      .error (.http 400 d)) := by
  constructor
  · exact (C4_skip_vs_reject _ _ flatAb [] [nodule]).1 1 1 0 5 rfl (by norm_num)
  · refine (C4_skip_vs_reject _ _ badAb [nodule] []).2 rfl ?_
    intro a ha
    have ha' : a = nodule := by simpa using ha
    subst ha'
    intro hno
    rw [show parsedBBox nodule = some (100, 50, 40, 30) from rfl] at hno
    cases hno

/-- C6 counterexample: a malformed plain-raster upload (`.png` name, bytes
`Image.open` rejects) makes `process_image` fail with the uncaught
`UnidentifiedImageError` — an unhandled server-side exception, not the
claimed client-error DecodeError rejection. -/
theorem C6_counterexample :
    process_image ⟨"scan.png", .invalidBytes "broken header"⟩ [] =
      .error (.unhandled "cannot identify image file") ∧
    ∀ status detail,
      (Except.error (PyErr.unhandled "cannot identify image file") :
        Except PyErr (Canvas × Canvas)) ≠ .error (.http status detail) := by
  refine ⟨rfl, ?_⟩
  intro s d h
  simp at h

/-- C6 amended: a clinical-container stream that fails header parsing
(`InvalidDicomError`) is rejected with the client-error HTTP 400
DecodeError; but a malformed plain-raster stream, and a clinical stream
whose pixel data cannot be decoded (e.g. unsupported transfer syntax),
escape as unhandled exceptions — server errors — with no output emitted in
any of the three cases. -/
theorem C6_decode_error_paths (abs : List Abnormality) (msg : String)
    (d : DicomFile) (em : String) (hd : d.pixelData = .error em) :
    (process_image ⟨"scan.dcm", .invalidBytes msg⟩ abs =
      .error (.http 400 ("DICOM processing error: " ++ msg))) ∧
    (process_image ⟨"scan.png", .invalidBytes msg⟩ abs =
      .error (.unhandled "cannot identify image file")) ∧
    (process_image ⟨"scan.dcm", .dicomFile d⟩ abs =
      .error (.unhandled em)) := by
  refine ⟨rfl, rfl, ?_⟩
  have h1 : decodeUpload ⟨"scan.dcm", .dicomFile d⟩ = .error (.unhandled em) := by
    have hext : extOf "scan.dcm" = "dcm" := rfl
    unfold decodeUpload
    dsimp only
    rw [if_pos (Or.inl hext)]
    unfold process_dicom
    simp [dcmread, hd]
  unfold process_image
  rw [h1]

/-- Witness for C6 at concrete inputs. -/
theorem C6_witness :
    (process_image ⟨"scan.dcm", .invalidBytes "bad"⟩ [] =
      .error (.http 400 ("DICOM processing error: " ++ "bad"))) ∧
    (process_image ⟨"scan.png", .invalidBytes "bad"⟩ [] =
      .error (.unhandled "cannot identify image file")) ∧
    (process_image ⟨"scan.dcm", .dicomFile badDicom⟩ [] =
      .error (.unhandled "Unsupported Transfer Syntax")) :=
  C6_decode_error_paths [] "bad" badDicom "Unsupported Transfer Syntax" rfl

/-- C7 counterexample: with every form field absent from the request,
`create_report` still stores a value — the empty string — under every key
of the details dict, so every patient row renders the empty string, which
is not `N/A`. -/
theorem C7_counterexample :
    leftRows (buildDet emptyForm) =
      [("Name:", ""), ("ID:", ""), ("Gender:", ""), ("Age:", ""),
       ("Location:", "")] ∧
    rightRows (buildDet emptyForm) =
      [("Exam Date:", ""), ("Physician:", ""), ("Radiologist:", ""),
       ("Exam Type:", ""), ("Body Part:", "")] ∧
    ("" : String) ≠ "N/A" := by
  refine ⟨rfl, rfl, by decide⟩

/-- C7 amended: the compositor itself defaults a details key that is absent
from the dict to `N/A`, for all ten fields; but every request-absent field
reaches the dict as the empty string (FastAPI's `Form('')` default plus the
unconditional dict build in `create_report`), so through the endpoint the
ten rows render the empty string instead. -/
theorem C7_absent_fields_render (det : String → Option String) (f : ReqForm)
    (hdet : ∀ k, det k = none)
    (hf : f.patientName = none ∧ f.patientId = none ∧ f.gender = none ∧
      f.age = none ∧ f.location = none ∧ f.dateOfExam = none ∧
      f.referredPhysician = none ∧ f.radiologist = none ∧
      f.examType = none ∧ f.bodyPart = none) :
    (leftRows det = [("Name:", "N/A"), ("ID:", "N/A"), ("Gender:", "N/A"),
        ("Age:", "N/A"), ("Location:", "N/A")] ∧
     rightRows det = [("Exam Date:", "N/A"), ("Physician:", "N/A"),
        ("Radiologist:", "N/A"), ("Exam Type:", "N/A"), ("Body Part:", "N/A")]) ∧
    (leftRows (buildDet f) = [("Name:", ""), ("ID:", ""), ("Gender:", ""),
        ("Age:", ""), ("Location:", "")] ∧
     rightRows (buildDet f) = [("Exam Date:", ""), ("Physician:", ""),
        ("Radiologist:", ""), ("Exam Type:", ""), ("Body Part:", "")]) := by
  obtain ⟨h1, h2, h3, h4, h5, h6, h7, h8, h9, h10⟩ := hf
  constructor
  · constructor <;> simp [leftRows, rightRows, detGet, hdet]
  · constructor <;>
      simp [leftRows, rightRows, detGet, buildDet,
        h1, h2, h3, h4, h5, h6, h7, h8, h9, h10]

/-- Witness for C7 at the all-absent request. -/
theorem C7_witness :
    (leftRows (fun _ => none) = [("Name:", "N/A"), ("ID:", "N/A"),
        ("Gender:", "N/A"), ("Age:", "N/A"), ("Location:", "N/A")] ∧
     rightRows (fun _ => none) = [("Exam Date:", "N/A"), ("Physician:", "N/A"),
        ("Radiologist:", "N/A"), ("Exam Type:", "N/A"), ("Body Part:", "N/A")]) ∧
    (leftRows (buildDet emptyForm) = [("Name:", ""), ("ID:", ""),
        ("Gender:", ""), ("Age:", ""), ("Location:", "")] ∧
     rightRows (buildDet emptyForm) = [("Exam Date:", ""), ("Physician:", ""),
        ("Radiologist:", ""), ("Exam Type:", ""), ("Body Part:", "")]) :=
  C7_absent_fields_render (fun _ => none) emptyForm (fun _ => rfl)
    ⟨rfl, rfl, rfl, rfl, rfl, rfl, rfl, rfl, rfl, rfl⟩

/-- C8: when loading the branding asset fails, page-1 decoration still runs
to completion and yields exactly the date text, the time text and the
disclaimer footer — no logo operation — and the footer is drawn on every
page; the decorator is a total function into a list of operations, so the
failure is never surfaced to the caller. -/
theorem C8_logo_failure_degrades (asset : Option LogoImg) (e : PyErr)
    (dateStr timeStr : String) (h : fetch_logo asset = .error e) :
    add_page_decorations asset 1 dateStr timeStr =
      [DecOp.rightText (letterW - rightMargin) (letterH - topMargin + 20) dateStr,
       DecOp.rightText (letterW - rightMargin) (letterH - topMargin + 4) timeStr,
       DecOp.centredText (letterW / 2) (bottomMargin / 2) disclaimer] ∧
    (∀ p, DecOp.centredText (letterW / 2) (bottomMargin / 2) disclaimer ∈
      add_page_decorations asset p dateStr timeStr) := by
  constructor
  · unfold add_page_decorations
    rw [h]
    rfl
  · intro p
    unfold add_page_decorations
    by_cases hp : p = 1 <;> simp [hp]

/-- Witness for C8: the asset file missing from disk. -/
theorem C8_witness :
    add_page_decorations none 1 "Date: 2026-10-12" "Time: 00:00:00" =
      [DecOp.rightText (letterW - rightMargin) (letterH - topMargin + 20)
         "Date: 2026-10-12",
       DecOp.rightText (letterW - rightMargin) (letterH - topMargin + 4)
         "Time: 00:00:00",
       DecOp.centredText (letterW / 2) (bottomMargin / 2) disclaimer] ∧
    (∀ p, DecOp.centredText (letterW / 2) (bottomMargin / 2) disclaimer ∈
      add_page_decorations none p "Date: 2026-10-12" "Time: 00:00:00") :=
  C8_logo_failure_degrades none
    (.http 500 "Logo load failed: cannot identify image file")
    "Date: 2026-10-12" "Time: 00:00:00" rfl

/-- C9: a successful `process_image` returns an original canvas with no
draw operations on it, an annotated canvas sharing the same resized base
pixels, and an original canvas identical across every abnormality list for
the same upload — the annotation step never touches the unannotated copy. -/
theorem C9_original_never_mutated (file : UploadFile) (abs : List Abnormality)
    (res : Canvas × Canvas) (h : process_image file abs = .ok res) :
    res.1.ops = [] ∧ res.2.base = res.1.base ∧
      ∀ abs' res', process_image file abs' = .ok res' → res'.1 = res.1 := by
  unfold process_image at h
  rcases hd : decodeUpload file with e | img
  · simp [hd] at h
  simp only [hd] at h
  rcases ha : annotateAll ((1024 : ℚ) / img.w) ((1024 : ℚ) / img.h) abs
    with e | ops
  · simp [ha] at h
  simp only [ha, Except.ok.injEq] at h
  subst h
  refine ⟨rfl, rfl, ?_⟩
  intro abs' res' h'
  unfold process_image at h'
  simp only [hd] at h'
  rcases ha' : annotateAll ((1024 : ℚ) / img.w) ((1024 : ℚ) / img.h) abs'
    with e' | ops'
  · simp [ha'] at h'
  simp only [ha', Except.ok.injEq] at h'
  subst h'
  rfl

/-- Witness for C9: the demo PNG with the empty abnormality list. -/
theorem C9_witness :
    ((⟨resizeRGB demoImg 1024, []⟩, ⟨resizeRGB demoImg 1024, ([] : List DrawOp)⟩) :
        Canvas × Canvas).1.ops = [] ∧
    ((⟨resizeRGB demoImg 1024, []⟩, ⟨resizeRGB demoImg 1024, ([] : List DrawOp)⟩) :
        Canvas × Canvas).2.base =
      ((⟨resizeRGB demoImg 1024, []⟩, ⟨resizeRGB demoImg 1024, ([] : List DrawOp)⟩) :
        Canvas × Canvas).1.base ∧
    ∀ abs' res', process_image demoPng abs' = .ok res' →
      res'.1 = ((⟨resizeRGB demoImg 1024, []⟩,
        ⟨resizeRGB demoImg 1024, ([] : List DrawOp)⟩) : Canvas × Canvas).1 :=
  C9_original_never_mutated demoPng []
    (⟨resizeRGB demoImg 1024, []⟩, ⟨resizeRGB demoImg 1024, []⟩) rfl

/-- C10: the outcome of `create_report` restricted to the embedded images is
the same for any two values of the `isAbnormal` flag with all other inputs
fixed, and every successful document splits around the findings block with
identical prefix, identical suffix and the identical image pair — only the
findings flowables read the flag. -/
theorem C10_flag_affects_only_findings (file : UploadFile) (f : ReqForm)
    (b b' : Option Bool) :
    ((create_report file { f with isAbnormal := b }).map docImages =
      (create_report file { f with isAbnormal := b' }).map docImages) ∧
    (∀ elems, create_report file { f with isAbnormal := b } = .ok elems →
      ∃ orig ann ab_list,
        docImages elems = [orig, ann] ∧
        elems = gpHead (buildDet f) ++ findingsElems (b.getD false) ab_list ++
          gpTail (buildDet f) orig ann ∧
        create_report file { f with isAbnormal := b' } =
          .ok (gpHead (buildDet f) ++ findingsElems (b'.getD false) ab_list ++
            gpTail (buildDet f) orig ann)) := by
  unfold create_report
  by_cases hs : validSuffix file.filename = true
  · rw [hs]
    dsimp only
    rcases hpa : parseAbnormalities (f.abnormalities.getD (.arr []))
      with e | ab_list
    · simp only [hpa]
      exact ⟨trivial, fun elems h => Except.noConfusion h⟩
    simp only [hpa]
    rcases hpi : process_image file ab_list with e | pair
    · simp only [hpi]
      exact ⟨trivial, fun elems h => Except.noConfusion h⟩
    obtain ⟨orig, ann⟩ := pair
    simp only [hpi]
    constructor
    · show Except.ok (docImages (generate_pdf_report orig ann _ _ ab_list)) =
        Except.ok (docImages (generate_pdf_report orig ann _ _ ab_list))
      rw [docImages_generate, docImages_generate]
    · intro elems h
      have helems : generate_pdf_report orig ann (buildDet f) (b.getD false)
          ab_list = elems := by
        simpa using h
      refine ⟨orig, ann, ab_list, ?_, ?_, rfl⟩
      · rw [← helems, docImages_generate]
      · rw [← helems]; rfl
  · rw [Bool.not_eq_true] at hs
    rw [hs]
    dsimp only
    exact ⟨rfl, fun elems h => Except.noConfusion h⟩

/-- Witness for C10: the demo PNG and the all-absent form, flag set versus
cleared. -/
theorem C10_witness :
    ((create_report demoPng { emptyForm with isAbnormal := some true }).map
        docImages =
      (create_report demoPng { emptyForm with isAbnormal := some false }).map
        docImages) ∧
    (∃ orig ann ab_list,
      docImages (gpHead (buildDet emptyForm) ++ findingsElems true [] ++
          gpTail (buildDet emptyForm) ⟨resizeRGB demoImg 1024, []⟩
            ⟨resizeRGB demoImg 1024, []⟩) = [orig, ann] ∧
      (gpHead (buildDet emptyForm) ++ findingsElems true [] ++
          gpTail (buildDet emptyForm) ⟨resizeRGB demoImg 1024, []⟩
            ⟨resizeRGB demoImg 1024, []⟩) =
        gpHead (buildDet emptyForm) ++ findingsElems true ab_list ++
          gpTail (buildDet emptyForm) orig ann ∧
      create_report demoPng { emptyForm with isAbnormal := some false } =
        .ok (gpHead (buildDet emptyForm) ++ findingsElems false ab_list ++
          gpTail (buildDet emptyForm) orig ann)) := by
  have h := C10_flag_affects_only_findings demoPng emptyForm
    (some true) (some false)
  exact ⟨h.1, h.2 (gpHead (buildDet emptyForm) ++ findingsElems true [] ++
    gpTail (buildDet emptyForm) ⟨resizeRGB demoImg 1024, []⟩
      ⟨resizeRGB demoImg 1024, []⟩) rfl⟩

end RadioIQ
